import Mathlib

/-!
Verification of the NeuroNest telemetry / classification pipeline.

Shallow embedding of the relevant source functions:
* the rule-based classifier (MLModelService: predictWithRules, smoothPrediction,
  predict) and the context handler that feeds it (WearableContext.handleSensorData);
* the WiFi signal conditioner (ESP32WiFiService.parseSensorData: heart-rate
  spike rejection, weighted moving average and display clamping);
* the bounded history store (StorageService: savePrediction, saveStressEpisode,
  saveSensorReading, seedHistoryIfNeeded);
* the polling failure counter (ESP32WiFiService.startPolling /
  handlePollingError / disconnect);
* the weekly severity bucketing (WeeklyHistory.loadWeeklyData).

JavaScript numbers are modelled as rationals; exact decimal arithmetic agrees
with the float semantics on all comparisons used here.  Wall-clock stamping
(Date.now) is supplied by the caller as explicit data.
-/


/-- Mind state labels (MIND_STATES in MLModelService). -/
inductive MState
  | calm
  | stressed
  | meltdown
  | amusement
  | unknown
deriving DecidableEq, Repr

/-- Physiological threshold indicators computed by predictWithRules. -/
structure Indicators where
  hrElevated : Bool
  hrHigh : Bool
  hrCritical : Bool
  tempElevated : Bool
  tempHigh : Bool
  edaElevated : Bool
  edaHigh : Bool
  edaCritical : Bool
deriving DecidableEq, Repr

/-- Result of one unsmoothed rule-based prediction (predictWithRules). -/
structure RuleResult where
  state : MState
  confidence : ℚ
  stressScore : ℚ
  indicators : Indicators
  devHR : ℚ
  devTemp : ℚ
  devEDA : ℚ
deriving DecidableEq, Repr

/-- Heart-rate z-score against the fixed population parameters (mean 75, std 15). -/
def hrDeviation (hr : ℚ) : ℚ := (hr - 75) / 15

/-- Temperature z-score (mean 36.5, std 0.5). -/
def tempDeviation (t : ℚ) : ℚ := (t - 36.5) / 0.5

/-- EDA z-score (mean 2.0, std 1.5). -/
def edaDeviation (e : ℚ) : ℚ := (e - 2.0) / 1.5

/-- Threshold indicator flags of predictWithRules (hard-coded tiers 120/140/160,
38.0/38.8, 8/12/18). -/
def mkIndicators (hr t e : ℚ) : Indicators where
  hrElevated := decide (120 ≤ hr)
  hrHigh := decide (140 ≤ hr)
  hrCritical := decide (160 ≤ hr)
  tempElevated := decide (38.0 ≤ t)
  tempHigh := decide (38.8 ≤ t)
  edaElevated := decide (8.0 ≤ e)
  edaHigh := decide (12.0 ≤ e)
  edaCritical := decide (18.0 ≤ e)

/-- Heart-rate ladder contribution to the stress score (40% weight tier). -/
def hrContribution (ind : Indicators) : ℚ :=
  if ind.hrCritical then 0.40 else if ind.hrHigh then 0.28
  else if ind.hrElevated then 0.10 else 0

/-- EDA ladder contribution (40% weight tier). -/
def edaContribution (ind : Indicators) : ℚ :=
  if ind.edaCritical then 0.40 else if ind.edaHigh then 0.24
  else if ind.edaElevated then 0.08 else 0

/-- Temperature ladder contribution (20% weight tier). -/
def tempContribution (ind : Indicators) : ℚ :=
  if ind.tempHigh then 0.20 else if ind.tempElevated then 0.06 else 0

/-- Combined weighted z-score used for the outlier bonus. -/
def combinedDeviation (hr t e : ℚ) : ℚ :=
  hrDeviation hr * 0.4 + edaDeviation e * 0.4 + tempDeviation t * 0.2

/-- Outlier micro-adjustment: +0.08 past 3.5, another +0.08 past 5.0. -/
def deviationBonus (c : ℚ) : ℚ :=
  (if 3.5 < c then (0.08 : ℚ) else 0) + (if 5.0 < c then (0.08 : ℚ) else 0)

/-- Total stress score of predictWithRules before classification. -/
def stressScoreOf (hr t e : ℚ) : ℚ :=
  hrContribution (mkIndicators hr t e) + edaContribution (mkIndicators hr t e) +
    tempContribution (mkIndicators hr t e) + deviationBonus (combinedDeviation hr t e)

/-- Truncation toward zero, as used by the JavaScript % operator. -/
def truncQ (q : ℚ) : ℤ := if q < 0 then ⌈q⌉ else ⌊q⌋

/-- JavaScript remainder a % b (sign follows the dividend). -/
def jsMod (a b : ℚ) : ℚ := a - b * truncQ (a / b)

/-- Deterministic micro-variation seeded from the sensor values:
((heartRate * 7 + eda * 13) % 100) / 10000. -/
def microNoise (hr e : ℚ) : ℚ := jsMod (hr * 7 + e * 13) 100 / 10000

/-- Final clamp of the confidence to the realistic range [0.40, 0.98]. -/
def clampConfidence (c : ℚ) : ℚ := min 0.98 (max 0.40 c)

/-- Rule-based prediction (MLModelService.predictWithRules). -/
def predictWithRules (hr t e : ℚ) : RuleResult :=
  let ind := mkIndicators hr t e
  let score := stressScoreOf hr t e
  let base : RuleResult :=
    { state := .calm, confidence := 0, stressScore := score, indicators := ind,
      devHR := hrDeviation hr, devTemp := tempDeviation t, devEDA := edaDeviation e }
  if 0.72 ≤ score then
    if (ind.hrCritical || ind.hrHigh) && (ind.edaCritical || ind.edaHigh) then
      { base with
          state := .meltdown
          confidence := clampConfidence (min 0.95 (0.78 + score * 0.15)) }
    else
      { base with
          state := .stressed
          confidence := clampConfidence (0.68 + score * 0.12) }
  else if 0.50 ≤ score then
    { base with
        state := .stressed
        confidence := clampConfidence (0.58 + score * 0.25) }
  else
    { base with
        state := .calm
        confidence := clampConfidence (0.82 + (0.50 - score) * 0.30 + microNoise hr e) }

/-- Classification rule as worded by the specification: score at least 0.72 gives
Meltdown exactly when both the HR and the EDA indicator reached at least the
high tier, otherwise Stressed; at least 0.50 gives Stressed; otherwise Calm.
Used only to compare the code-derived classifier against the spec text. -/
def classifySpec (score : ℚ) (ind : Indicators) : MState :=
  if 0.72 ≤ score then
    if (ind.hrHigh || ind.hrCritical) && (ind.edaHigh || ind.edaCritical) then
      .meltdown
    else .stressed
  else if 0.50 ≤ score then .stressed
  else .calm

/-- Insertion-ordered list of the distinct states in the window, matching the
key order of the stateCounts object built by smoothPrediction. -/
def stateKeys (l : List MState) : List MState :=
  l.foldl (fun acc s => if s ∈ acc then acc else acc ++ [s]) []

/-- Dominant-state loop of smoothPrediction: starts from the current state with
count 0 and replaces it whenever a key has a strictly greater count. -/
def dominantState (window : List RuleResult) (current : MState) : MState :=
  ((stateKeys (window.map RuleResult.state)).foldl
    (fun acc k =>
      if acc.1 < (window.map RuleResult.state).count k then
        ((window.map RuleResult.state).count k, k)
      else acc)
    (0, current)).2

/-- Mean confidence over the window (totalConfidence / length). -/
def windowAvgConfidence (l : List RuleResult) : ℚ :=
  (l.map RuleResult.confidence).sum / l.length

/-- Temporal smoothing (MLModelService.smoothPrediction): with fewer than two
window entries the current prediction is returned unchanged, otherwise the modal
state and the window-average confidence. -/
def smoothPrediction (window : List RuleResult) (current : RuleResult) : MState × ℚ :=
  if window.length < 2 then (current.state, current.confidence)
  else (dominantState window current.state, windowAvgConfidence window)

/-- Publicly returned prediction of MLModelService.predict: smoothed state and
confidence plus the raw unsmoothed result (absent on the rejection path). -/
structure PublicResult where
  state : MState
  confidence : ℚ
  raw : Option RuleResult
deriving Repr

/-- Smoothing window capacity (this.smoothingWindow). -/
def smoothingWindow : ℕ := 5

/-- One call of MLModelService.predict on numeric sensor data: temperature
defaulting, the 40..200 heart-rate validity gate, rule prediction, window push
with trim, then smoothing.  Returns the public result and the updated window. -/
def predict (window : List RuleResult) (hr t0 e : ℚ) : PublicResult × List RuleResult :=
  let t := if 0 < t0 then t0 else 36.5
  if hr < 40 ∨ 200 < hr then
    ({ state := .unknown, confidence := 0, raw := none }, window)
  else
    let p := predictWithRules hr t e
    let w1 := window ++ [p]
    let w2 := if smoothingWindow < w1.length then w1.drop 1 else w1
    ({ state := (smoothPrediction w2 p).1, confidence := (smoothPrediction w2 p).2,
       raw := some p }, w2)

/-- Folding predict over a list of readings starting from an empty window. -/
def runPredict (inputs : List (ℚ × ℚ × ℚ)) : PublicResult × List RuleResult :=
  inputs.foldl (fun acc i => predict acc.2 i.1 i.2.1 i.2.2)
    ({ state := .unknown, confidence := 0, raw := none }, [])

/-- Conjunction of the two high-tier indicator pairs of the raw result carried
inside a public result; true by convention when no raw result is present. -/
def rawHighIndicators (r : PublicResult) : Bool :=
  match r.raw with
  | none => true
  | some p =>
    (p.indicators.hrHigh || p.indicators.hrCritical) &&
      (p.indicators.edaHigh || p.indicators.edaCritical)

/-- Input sequence for the smoothing counterexample: three meltdown readings
followed by one calm reading. -/
def c1Inputs : List (ℚ × ℚ × ℚ) :=
  [(165, 36.5, 19), (165, 36.5, 19), (165, 36.5, 19), (65, 36.5, 1)]

/-- Conditioned reading handed from the signal conditioner to the context
handler (heartRate, fingerPresent flag, temperature, smoothed EDA). -/
structure CondReading where
  heartRate : ℚ
  fingerDetected : Bool
  temperature : ℚ
  eda : ℚ
deriving Repr

/-- DEFAULT_PREDICTION of WearableContext: state Unknown with confidence 0. -/
def defaultPrediction : PublicResult :=
  { state := .unknown, confidence := 0, raw := none }

/-- WearableContext.handleSensorData classification path: with no finger
detected the prediction resets to the default and the classifier is not called;
otherwise the reading is passed to MLModelService.predict. -/
def handleSensorData (window : List RuleResult) (r : CondReading) :
    PublicResult × List RuleResult :=
  if r.fingerDetected then predict window r.heartRate r.temperature r.eda
  else (defaultPrediction, window)

/-- Arithmetic mean of a buffer (reduce-sum divided by length). -/
def meanQ (l : List ℚ) : ℚ := l.sum / l.length

/-- Spike-rejection threshold HR_MAX_JUMP of the WiFi conditioner. -/
def hrMaxJump : ℚ := 25

/-- Rolling-buffer capacity HR_SMOOTHING_WINDOW of the WiFi conditioner. -/
def hrSmoothingWindow : ℕ := 6

/-- Buffer insertion step of parseSensorData: with at least two buffered samples
a raw value deviating by more than HR_MAX_JUMP from the running average is
discarded, otherwise the raw value is appended. -/
def hrBufferInsert (buf : List ℚ) (raw : ℚ) : List ℚ :=
  if 2 ≤ buf.length then
    if hrMaxJump < |raw - meanQ buf| then buf else buf ++ [raw]
  else buf ++ [raw]

/-- Full heart-rate buffer update of one parseSensorData call with finger
present: spike-gated insertion followed by the trim to the window size. -/
def hrBufferStep (buf : List ℚ) (raw : ℚ) : List ℚ :=
  let b := hrBufferInsert buf raw
  if hrSmoothingWindow < b.length then b.drop 1 else b

/-- Value and weight accumulators of the weighted moving average loop, where the
sample at index i carries weight i + 1. -/
def hrWeightedSums : List ℚ → ℕ → ℚ × ℚ
  | [], _ => (0, 0)
  | v :: rest, i =>
    let r := hrWeightedSums rest (i + 1)
    (v * ((i : ℚ) + 1) + r.1, ((i : ℚ) + 1) + r.2)

/-- Weighted moving average of the heart-rate buffer (recent samples weighted
linearly higher). -/
def weightedAverage (l : List ℚ) : ℚ := (hrWeightedSums l 0).1 / (hrWeightedSums l 0).2

/-- Clamp to the display band HR_DISPLAY_MIN..HR_DISPLAY_MAX = 60..100. -/
def clampDisplay (q : ℚ) : ℚ := max 60 (min 100 q)

/-- Math.round on the nonnegative values used here: floor of q + 1/2. -/
def roundJS (q : ℚ) : ℤ := ⌊q + 1/2⌋

/-- Conditioned heart rate produced by parseSensorData for a reading with
finger present: buffer update, weighted average, display clamp and rounding. -/
def conditionedHR (buf : List ℚ) (raw : ℚ) : ℚ :=
  ((roundJS (clampDisplay (weightedAverage (hrBufferStep buf raw)))) : ℤ)

/-- Ring-buffer trim: keep only the most recent n entries (Array slice(-n)). -/
def takeLast {α : Type} (n : ℕ) (l : List α) : List α := l.drop (l.length - n)

/-- Identifier of a stored record: a wall-clock id assigned by the save methods
(Date.now), or the composite id of a synthetic seed record. -/
inductive EntryId
  | real (n : ℕ)
  | seed (dayOffset i ts : ℕ)
deriving DecidableEq, Repr

/-- Persisted prediction record (id, state, confidence, stress score and
timestamp; the nested sensorData payload is carried opaquely and omitted). -/
structure PredEntry where
  id : EntryId
  state : MState
  confidence : ℚ
  stressScore : ℚ
  timestamp : ℕ
deriving DecidableEq, Repr

/-- Persisted raw sensor reading record. -/
structure ReadingEntry where
  id : ℕ
  heartRate : ℚ
  eda : ℚ
  timestamp : ℕ
deriving DecidableEq, Repr

/-- Stress test of savePrediction: state Stressed or Meltdown. -/
def isStressEntry (p : PredEntry) : Bool :=
  decide (p.state = .stressed) || decide (p.state = .meltdown)

/-- The three bounded collections of StorageService. -/
structure Store where
  readings : List ReadingEntry
  predictions : List PredEntry
  episodes : List PredEntry
deriving Repr

/-- Empty storage. -/
def emptyStore : Store := ⟨[], [], []⟩

/-- StorageService.saveSensorReading: append, keep the last 1000. -/
def saveSensorReading (s : Store) (r : ReadingEntry) : Store :=
  { s with readings := takeLast 1000 (s.readings ++ [r]) }

/-- StorageService.saveStressEpisode: append to the episode log, keep the last
200. -/
def saveStressEpisode (s : Store) (e : PredEntry) : Store :=
  { s with episodes := takeLast 200 (s.episodes ++ [e]) }

/-- StorageService.savePrediction: append, keep the last 500, and additionally
record a stress episode when the state is Stressed or Meltdown. -/
def savePrediction (s : Store) (p : PredEntry) : Store :=
  let s1 := { s with predictions := takeLast 500 (s.predictions ++ [p]) }
  if isStressEntry p then saveStressEpisode s1 p else s1

/-- One append operation against the store. -/
inductive StoreEvent
  | reading (r : ReadingEntry)
  | prediction (p : PredEntry)

/-- Apply one store append. -/
def applyEvent (s : Store) : StoreEvent → Store
  | .reading r => saveSensorReading s r
  | .prediction p => savePrediction s p

/-- Replay a sequence of appends against the empty store. -/
def runStore (evs : List StoreEvent) : Store := evs.foldl applyEvent emptyStore

/-- All prediction records appended by a sequence of events, in order. -/
def eventPredictions (evs : List StoreEvent) : List PredEntry :=
  evs.filterMap fun e => match e with
    | .prediction p => some p
    | .reading _ => none

/-- All reading records appended by a sequence of events, in order. -/
def eventReadings (evs : List StoreEvent) : List ReadingEntry :=
  evs.filterMap fun e => match e with
    | .reading r => some r
    | .prediction _ => none

/-- One stressed prediction appended before a flood of calm ones. -/
def stressEntry : PredEntry := ⟨.real 0, .stressed, 0.8, 0.8, 0⟩

/-- Five hundred calm predictions with distinct ids. -/
def calmFlood : List PredEntry :=
  (List.range 500).map fun i => ⟨.real (i + 1), .calm, 0.9, 0, i + 1⟩

/-- Event sequence: the stressed prediction followed by the calm flood. -/
def c7Events : List StoreEvent := (stressEntry :: calmFlood).map .prediction

/-- Polling-relevant state of the WiFi link manager: the consecutive failure
counter, the connected flag, and how many lost-connection errors were raised. -/
structure LinkState where
  consecutiveFailures : ℕ
  connected : Bool
  lostConnectionErrors : ℕ
deriving DecidableEq, Repr

/-- Default maxConsecutiveFailures of the link manager. -/
def maxFailures : ℕ := 5

/-- One polling tick applied to the link state (startPolling callback plus
handlePollingError): while connected, a successful fetch resets the failure
counter and a failure increments it; when the counter reaches the threshold the
manager disconnects (which stops polling and resets the counter) and raises one
lost-connection error.  After disconnect the timer is stopped, so further ticks
do not occur and the state is unchanged. -/
def pollTick (s : LinkState) (success : Bool) : LinkState :=
  if s.connected then
    if success then { s with consecutiveFailures := 0 }
    else if maxFailures ≤ s.consecutiveFailures + 1 then
      { consecutiveFailures := 0, connected := false,
        lostConnectionErrors := s.lostConnectionErrors + 1 }
    else { s with consecutiveFailures := s.consecutiveFailures + 1 }
  else s

/-- Replay a sequence of poll outcomes. -/
def runPolls (s : LinkState) (outcomes : List Bool) : LinkState :=
  outcomes.foldl pollTick s

/-- Freshly connected link state (connect resets the counter to 0). -/
def connectedLink : LinkState := ⟨0, true, 0⟩

/-- Severity labels of the weekly day summaries. -/
inductive Severity
  | allCalm
  | mostlyCalm
  | moderate
  | elevated
deriving DecidableEq, Repr

/-- Severity banding of loadWeeklyData on the non-calm ratio: below 0.15 All
Calm, below 0.35 Mostly Calm, below 0.6 Moderate, otherwise Elevated. -/
def severityOfNonCalm (r : ℚ) : Severity :=
  if r < 0.15 then .allCalm
  else if r < 0.35 then .mostlyCalm
  else if r < 0.6 then .moderate
  else .elevated

/-- Number of Calm predictions of a day bucket. -/
def calmCount (l : List PredEntry) : ℕ :=
  (l.filter fun p => p.state == MState.calm).length

/-- Severity computed by loadWeeklyData for one day bucket. -/
def daySeverity (l : List PredEntry) : Severity :=
  severityOfNonCalm (((l.length : ℚ) - calmCount l) / l.length)

/-- Severity as a function of the pair (calmCount, total). -/
def severityFromCounts (calm total : ℕ) : Severity :=
  severityOfNonCalm (((total : ℚ) - calm) / total)

/-- Seconds per calendar day; the model clock counts seconds with local midnight
aligned to day boundaries. -/
def secondsPerDay : ℕ := 86400

/-- Per-day synthetic record count of seedHistoryIfNeeded:
8 + ((dayOfMonth * 3 + dayOffset * 7) % 7). -/
def seedRecordCount (dayOfMonth dayOffset : ℕ) : ℕ :=
  8 + (dayOfMonth * 3 + dayOffset * 7) % 7

/-- Minute-of-span of the i-th synthetic record: even spread over the
840-minute waking span plus a deterministic jitter of up to 7 minutes either
way, clamped to the span. -/
def seedMinute (rc i dayOffset : ℕ) : ℕ :=
  (max 0 (min 839 ((840 * i / rc : ℕ) + (((i * 17 + dayOffset * 31) % 15 : ℕ) - 7 : ℤ)))).toNat

/-- Timestamp in seconds of the i-th synthetic record of the day dayOffset days
before now: local midnight of that day plus 7 hours plus the record minute plus
the deterministic second offset (i * 23) % 60. -/
def seedTimestamp (now dayOffset minute i : ℕ) : ℕ :=
  (now / secondsPerDay - dayOffset) * secondsPerDay + 7 * 3600 + minute * 60 + (i * 23) % 60

/-- One synthetic seed record: id seed_dayOffset_i_ts, state Calm, and the
deterministic confidence and stress-score formulas of seedHistoryIfNeeded. -/
def seedRecord (dayOffset i ts : ℕ) : PredEntry :=
  { id := .seed dayOffset i ts
    state := .calm
    confidence := 0.84 + (((dayOffset * 100 + i) * 3) % 14 : ℕ) / 100
    stressScore := (((dayOffset * 100 + i) * 9) % 12 : ℕ) / 100
    timestamp := ts }

/-- Synthetic records of one day, skipping records whose timestamp lies in the
future.  The calendar day-of-month is supplied by dom. -/
def seedDay (dom : ℕ → ℕ) (now dayOffset : ℕ) : List PredEntry :=
  (List.range (seedRecordCount (dom dayOffset) dayOffset)).filterMap fun i =>
    let ts := seedTimestamp now dayOffset
      (seedMinute (seedRecordCount (dom dayOffset) dayOffset) i dayOffset) i
    if now < ts then none else some (seedRecord dayOffset i ts)

/-- All synthetic records, day offsets 6 down to 0 (oldest day first). -/
def seedRecords (dom : ℕ → ℕ) (now : ℕ) : List PredEntry :=
  ((List.range 7).reverse.map (seedDay dom now)).flatten

/-- StorageService.seedHistoryIfNeeded: when the persisted prediction history is
empty, persist the synthetic 7-day distribution into it; otherwise change
nothing.  The calendar day-of-month function and the wall clock are explicit. -/
def seedHistoryIfNeeded (dom : ℕ → ℕ) (now : ℕ) (s : Store) : Store :=
  if s.predictions.isEmpty then { s with predictions := seedRecords dom now } else s

/-- Seed-shaped record id test. -/
def isSeedId : EntryId → Bool
  | .seed _ _ _ => true
  | .real _ => false

/-- Concrete wall clock for the evaluation: the last second of day 818. -/
def c10Now : ℕ := 818 * 86400 + 86399

/-- Concrete calendar: every generated day has day-of-month 15. -/
def c10Dom : ℕ → ℕ := fun _ => 15

/-- Projection fact: the stress score field of a rule prediction is the stress
score computed from the inputs, in every branch. -/
lemma predictWithRules_stressScore (hr t e : ℚ) :
    (predictWithRules hr t e).stressScore = stressScoreOf hr t e := by
  simp only [predictWithRules]
  split_ifs <;> rfl

/-- Projection fact: the indicators field of a rule prediction is the indicator
record computed from the inputs, in every branch. -/
lemma predictWithRules_indicators (hr t e : ℚ) :
    (predictWithRules hr t e).indicators = mkIndicators hr t e := by
  simp only [predictWithRules]
  split_ifs <;> rfl

/-- C4: the unsmoothed classification agrees with the spec classification rule as
a function of stress score and indicators, confidence is always inside
[0.40, 0.98], and Calm confidence equals the deterministic perturbation formula. -/
theorem c4_unsmoothed_classification (hr t e : ℚ) :
    (predictWithRules hr t e).state =
      classifySpec (predictWithRules hr t e).stressScore (predictWithRules hr t e).indicators ∧
    (0.40 : ℚ) ≤ (predictWithRules hr t e).confidence ∧
    (predictWithRules hr t e).confidence ≤ 0.98 ∧
    ((predictWithRules hr t e).state = .calm →
      (predictWithRules hr t e).confidence =
        clampConfidence (0.82 + (0.50 - (predictWithRules hr t e).stressScore) * 0.30 +
          microNoise hr e)) := by
  have hge : ∀ c : ℚ, (0.40 : ℚ) ≤ clampConfidence c :=
    fun c => le_min (by norm_num) (le_max_left _ _)
  have hle : ∀ c : ℚ, clampConfidence c ≤ 0.98 := fun c => min_le_left _ _
  rw [predictWithRules_stressScore, predictWithRules_indicators]
  simp only [predictWithRules, classifySpec]
  generalize stressScoreOf hr t e = S
  generalize microNoise hr e = N
  generalize mkIndicators hr t e = I
  split_ifs with h1 h2 h3 h4 h5 <;>
    refine ⟨?_, hge _, hle _, ?_⟩ <;>
    simp_all only [Bool.and_eq_true, Bool.or_eq_true] <;>
    try tauto

/-- C4 witness: the confidence facts evaluated at the calm scenario reading
HR 65, temperature 36.5, EDA 1, discharging the Calm hypothesis there. -/
theorem c4_unsmoothed_classification_witness :
    (0.40 : ℚ) ≤ (predictWithRules 65 36.5 1).confidence ∧
    (predictWithRules 65 36.5 1).confidence =
      clampConfidence (0.82 + (0.50 - (predictWithRules 65 36.5 1).stressScore) * 0.30 +
        microNoise 65 1) := by
  refine ⟨(c4_unsmoothed_classification 65 36.5 1).2.1,
    (c4_unsmoothed_classification 65 36.5 1).2.2.2 ?_⟩
  norm_num [predictWithRules, stressScoreOf, mkIndicators, hrContribution, edaContribution,
    tempContribution, deviationBonus, combinedDeviation, hrDeviation, tempDeviation, edaDeviation]

/-- State classification fact: the state of a rule prediction equals the spec
classification rule applied to the computed score and indicators. -/
lemma predictWithRules_state (hr t e : ℚ) :
    (predictWithRules hr t e).state =
      classifySpec (stressScoreOf hr t e) (mkIndicators hr t e) := by
  simp only [predictWithRules, classifySpec]
  generalize stressScoreOf hr t e = S
  generalize mkIndicators hr t e = I
  split_ifs with h1 h2 h3 h4 h5 <;>
    simp_all only [Bool.and_eq_true, Bool.or_eq_true] <;> try tauto

/-- C1 (amended): every unsmoothed rule prediction with state Meltdown has both
the HR and the EDA indicator at least at the high tier. -/
theorem c1_meltdown_requires_high (hr t e : ℚ)
    (h : (predictWithRules hr t e).state = .meltdown) :
    ((predictWithRules hr t e).indicators.hrHigh = true ∨
      (predictWithRules hr t e).indicators.hrCritical = true) ∧
    ((predictWithRules hr t e).indicators.edaHigh = true ∨
      (predictWithRules hr t e).indicators.edaCritical = true) := by
  rw [predictWithRules_state] at h
  rw [predictWithRules_indicators]
  unfold classifySpec at h
  split_ifs at h with h1 h2 h3
  rw [Bool.and_eq_true, Bool.or_eq_true, Bool.or_eq_true] at h2
  exact h2

/-- C1 witness: the meltdown reading HR 165, temperature 36.5, EDA 19 classifies
as Meltdown and indeed has both high-tier indicator pairs set. -/
theorem c1_meltdown_requires_high_witness :
    ((predictWithRules 165 36.5 19).indicators.hrHigh = true ∨
      (predictWithRules 165 36.5 19).indicators.hrCritical = true) ∧
    ((predictWithRules 165 36.5 19).indicators.edaHigh = true ∨
      (predictWithRules 165 36.5 19).indicators.edaCritical = true) :=
  c1_meltdown_requires_high 165 36.5 19 (by
    norm_num [predictWithRules, stressScoreOf, mkIndicators, hrContribution, edaContribution,
      tempContribution, deviationBonus, combinedDeviation, hrDeviation, tempDeviation,
      edaDeviation])

set_option maxHeartbeats 2000000 in
/-- C1 counterexample: after three Meltdown readings and one calm reading the
publicly returned smoothed state is still Meltdown while the returned raw result
of the current reading has no high-tier indicator set, refuting the claim for
the temporally smoothed result. -/
theorem c1_smoothed_counterexample :
    (runPredict c1Inputs).1.state = .meltdown ∧
    rawHighIndicators (runPredict c1Inputs).1 = false := by
  have hfl : ⌊((65 : ℚ) * 7 + 1 * 13) / 100⌋ = 4 :=
    Int.floor_eq_iff.mpr (by constructor <;> norm_num)
  have hM : predictWithRules 165 (73/2) 19 =
      { state := .meltdown, confidence := 231/250, stressScore := 24/25,
        indicators := ⟨true, true, true, false, false, true, true, true⟩,
        devHR := 6, devTemp := 0, devEDA := 34/3 } := by
    norm_num [predictWithRules, stressScoreOf, mkIndicators, hrContribution, edaContribution,
      tempContribution, deviationBonus, combinedDeviation, hrDeviation, tempDeviation,
      edaDeviation, clampConfidence, min_def, max_def]
  have hC : predictWithRules 65 (73/2) 1 =
      { state := .calm, confidence := 1221/1250, stressScore := 0,
        indicators := ⟨false, false, false, false, false, false, false, false⟩,
        devHR := -2/3, devTemp := 0, devEDA := -2/3 } := by
    norm_num [predictWithRules, stressScoreOf, mkIndicators, hrContribution, edaContribution,
      tempContribution, deviationBonus, combinedDeviation, hrDeviation, tempDeviation,
      edaDeviation, clampConfidence, min_def, max_def, microNoise, jsMod, truncQ, hfl]
  norm_num [c1Inputs, runPredict, List.foldl, predict, hM, hC, smoothPrediction,
    smoothingWindow, dominantState, stateKeys, windowAvgConfidence, rawHighIndicators,
    List.count, List.countP]
  decide

/-- C2: a conditioned reading with no finger contact, or with heart rate outside
the physiological band 40..200, yields state Unknown with confidence 0 and
leaves the smoothing window untouched. -/
theorem c2_no_contact_unknown (window : List RuleResult) (r : CondReading)
    (h : r.fingerDetected = false ∨ r.heartRate < 40 ∨ 200 < r.heartRate) :
    (handleSensorData window r).1.state = .unknown ∧
    (handleSensorData window r).1.confidence = 0 ∧
    (handleSensorData window r).2 = window := by
  unfold handleSensorData
  rcases h with h | h
  · rw [h]
    simp [defaultPrediction]
  · by_cases hf : r.fingerDetected
    · rw [if_pos hf]
      simp only [predict]
      rw [if_pos h]
      exact ⟨rfl, rfl, rfl⟩
    · rw [if_neg hf]
      exact ⟨rfl, rfl, rfl⟩

/-- C2 witness: the no-finger reading with heart rate 0 evaluates to Unknown
with confidence 0 and an unchanged window. -/
theorem c2_no_contact_unknown_witness :
    (handleSensorData [] ⟨0, false, 36.5, 1⟩).1.state = .unknown ∧
    (handleSensorData [] ⟨0, false, 36.5, 1⟩).1.confidence = 0 ∧
    (handleSensorData [] ⟨0, false, 36.5, 1⟩).2 = [] :=
  c2_no_contact_unknown [] ⟨0, false, 36.5, 1⟩ (Or.inl rfl)

/-- C3: every pipeline-conditioned heart rate lies in the display band 60..100;
consequently all three heart-rate indicator tiers (which start at 120) are
false, the heart-rate ladder contributes 0 to the stress score, and the
Meltdown branch is unreachable for pipeline-conditioned readings. -/
theorem c3_clamped_hr_blocks_meltdown (buf : List ℚ) (raw t e : ℚ) :
    (60 : ℚ) ≤ conditionedHR buf raw ∧ conditionedHR buf raw ≤ 100 ∧
    (mkIndicators (conditionedHR buf raw) t e).hrElevated = false ∧
    (mkIndicators (conditionedHR buf raw) t e).hrHigh = false ∧
    (mkIndicators (conditionedHR buf raw) t e).hrCritical = false ∧
    hrContribution (mkIndicators (conditionedHR buf raw) t e) = 0 ∧
    (predictWithRules (conditionedHR buf raw) t e).state ≠ .meltdown := by
  set q := clampDisplay (weightedAverage (hrBufferStep buf raw)) with hq
  have hq60 : (60 : ℚ) ≤ q := le_max_left _ _
  have hq100 : q ≤ 100 := max_le (by norm_num) (min_le_left _ _)
  have h60 : (60 : ℚ) ≤ conditionedHR buf raw := by
    unfold conditionedHR roundJS
    rw [← hq]
    have : (60 : ℤ) ≤ ⌊q + 1/2⌋ := Int.le_floor.mpr (by push_cast; linarith)
    exact_mod_cast this
  have h100 : conditionedHR buf raw ≤ 100 := by
    unfold conditionedHR roundJS
    rw [← hq]
    have : ⌊q + 1/2⌋ < 101 := Int.floor_lt.mpr (by push_cast; linarith)
    have h : ⌊q + 1/2⌋ ≤ 100 := by omega
    exact_mod_cast h
  have hElev : (mkIndicators (conditionedHR buf raw) t e).hrElevated = false := by
    unfold mkIndicators
    exact decide_eq_false_iff_not.mpr (by intro hcon; linarith)
  have hHigh : (mkIndicators (conditionedHR buf raw) t e).hrHigh = false := by
    unfold mkIndicators
    exact decide_eq_false_iff_not.mpr (by intro hcon; linarith)
  have hCrit : (mkIndicators (conditionedHR buf raw) t e).hrCritical = false := by
    unfold mkIndicators
    exact decide_eq_false_iff_not.mpr (by intro hcon; linarith)
  refine ⟨h60, h100, hElev, hHigh, hCrit, ?_, ?_⟩
  · unfold hrContribution
    rw [hElev, hHigh, hCrit]
    simp
  · rw [predictWithRules_state]
    unfold classifySpec
    split_ifs with hA hB
    · rw [Bool.and_eq_true, Bool.or_eq_true] at hB
      rcases hB.1 with h | h
      · rw [hHigh] at h
        exact absurd h (by simp)
      · rw [hCrit] at h
        exact absurd h (by simp)
    · simp
    · simp
    · simp

/-- C5: with at least two buffered samples, a raw heart-rate value deviating by
more than 25 from the current buffer mean is discarded (the buffer is returned
unchanged); every value present after the step was already in the buffer or is
the new raw value within 25 of the pre-insert mean; and the buffer stays within
the window size. -/
theorem c5_spike_rejection (buf : List ℚ) (raw : ℚ)
    (h2 : 2 ≤ buf.length) (h6 : buf.length ≤ hrSmoothingWindow) :
    (hrMaxJump < |raw - meanQ buf| → hrBufferStep buf raw = buf) ∧
    (∀ x ∈ hrBufferStep buf raw, x ∈ buf ∨ (x = raw ∧ |raw - meanQ buf| ≤ hrMaxJump)) ∧
    (hrBufferStep buf raw).length ≤ hrSmoothingWindow := by
  unfold hrBufferStep hrBufferInsert hrSmoothingWindow
  unfold hrSmoothingWindow at h6
  rw [if_pos h2]
  by_cases hjump : hrMaxJump < |raw - meanQ buf|
  · rw [if_pos hjump]
    have hnot : ¬ 6 < buf.length := by omega
    rw [if_neg hnot]
    exact ⟨fun _ => rfl, fun x hx => Or.inl hx, h6⟩
  · rw [if_neg hjump]
    push_neg at hjump
    refine ⟨fun hcon => absurd hcon (not_lt.mpr hjump), ?_, ?_⟩
    · intro x hx
      by_cases htrim : 6 < (buf ++ [raw]).length
      · rw [if_pos htrim] at hx
        have hsub := List.drop_subset 1 (buf ++ [raw])
        have hx2 : x ∈ buf ++ [raw] := hsub hx
        rcases List.mem_append.mp hx2 with h | h
        · exact Or.inl h
        · exact Or.inr ⟨List.mem_singleton.mp h, hjump⟩
      · rw [if_neg htrim] at hx
        rcases List.mem_append.mp hx with h | h
        · exact Or.inl h
        · exact Or.inr ⟨List.mem_singleton.mp h, hjump⟩
    · by_cases htrim : 6 < (buf ++ [raw]).length
      · rw [if_pos htrim]
        rw [List.length_drop, List.length_append]
        simp only [List.length_singleton]
        omega
      · rw [if_neg htrim]
        omega

/-- C5 witness: with buffer [80, 80] (mean 80) the raw value 140 deviates by 60
and is discarded, leaving the buffer unchanged. -/
theorem c5_spike_rejection_witness : hrBufferStep [80, 80] 140 = [80, 80] :=
  (c5_spike_rejection [80, 80] 140 (by decide) (by decide)).1
    (by norm_num [meanQ, hrMaxJump])

lemma takeLast_length {α : Type} (n : ℕ) (l : List α) : (takeLast n l).length ≤ n := by
  unfold takeLast
  rw [List.length_drop]
  omega

lemma takeLast_append_takeLast {α : Type} (n : ℕ) (l : List α) (x : α) :
    takeLast n (takeLast n l ++ [x]) = takeLast n (l ++ [x]) := by
  unfold takeLast
  by_cases h : l.length ≤ n
  · have h0 : l.length - n = 0 := by omega
    rw [h0, List.drop_zero]
  · push_neg at h
    have hlen : (l.drop (l.length - n)).length = n := by
      rw [List.length_drop]
      omega
    rw [List.length_append, List.length_append, hlen]
    have e1 : n + [x].length - n = 1 := by simp
    have e2 : l.length + [x].length - n = l.length + 1 - n := by simp
    rw [e1, e2]
    rw [List.drop_append_eq_append_drop, List.drop_append_eq_append_drop]
    rw [List.drop_drop, hlen]
    have e3 : l.length - n + 1 = l.length + 1 - n := by omega
    have e4 : (1 : ℕ) - n = l.length + 1 - n - l.length := by omega
    rw [e3, e4]

lemma takeLast_subset {α : Type} (n : ℕ) (l : List α) : takeLast n l ⊆ l :=
  List.drop_subset _ _

/-- Closed form of the store after any sequence of appends: each collection is
the most recent slice of everything appended to it, and the episode log is the
most recent slice of the stressed or meltdown predictions. -/
lemma runStore_spec (evs : List StoreEvent) :
    (runStore evs).readings = takeLast 1000 (eventReadings evs) ∧
    (runStore evs).predictions = takeLast 500 (eventPredictions evs) ∧
    (runStore evs).episodes =
      takeLast 200 ((eventPredictions evs).filter isStressEntry) := by
  induction evs using List.reverseRecOn with
  | nil => exact ⟨rfl, rfl, rfl⟩
  | append_singleton l e ih =>
    obtain ⟨ihr, ihp, ihe⟩ := ih
    have hrun : runStore (l ++ [e]) = applyEvent (runStore l) e := by
      unfold runStore
      rw [List.foldl_append]
      rfl
    cases e with
    | reading r =>
      unfold eventReadings eventPredictions at *
      rw [List.filterMap_append, List.filterMap_append]
      simp only [List.filterMap_cons, List.filterMap_nil]
      rw [hrun]
      simp only [applyEvent, saveSensorReading]
      refine ⟨?_, ?_, ?_⟩
      · rw [ihr, takeLast_append_takeLast]
      · simpa using ihp
      · simpa using ihe
    | prediction p =>
      unfold eventReadings eventPredictions at *
      rw [List.filterMap_append, List.filterMap_append]
      simp only [List.filterMap_cons, List.filterMap_nil]
      rw [hrun]
      simp only [applyEvent, savePrediction]
      by_cases hstress : isStressEntry p
      · rw [if_pos hstress]
        unfold saveStressEpisode
        refine ⟨?_, ?_, ?_⟩
        · simpa using ihr
        · rw [ihp, takeLast_append_takeLast]
        · rw [List.filter_append, List.filter_cons, if_pos hstress, List.filter_nil]
          rw [ihe, takeLast_append_takeLast]
      · rw [if_neg hstress]
        refine ⟨?_, ?_, ?_⟩
        · simpa using ihr
        · rw [ihp, takeLast_append_takeLast]
        · rw [List.filter_append, List.filter_cons, if_neg hstress, List.filter_nil]
          simpa using ihe

/-- C6: after any sequence of appends each collection respects its capacity
(1000 readings, 500 predictions, 200 episodes) and equals exactly the most
recent slice of everything appended to it (oldest evicted first). -/
theorem c6_store_capacity_fifo (evs : List StoreEvent) :
    (runStore evs).readings.length ≤ 1000 ∧
    (runStore evs).predictions.length ≤ 500 ∧
    (runStore evs).episodes.length ≤ 200 ∧
    (runStore evs).readings = takeLast 1000 (eventReadings evs) ∧
    (runStore evs).predictions = takeLast 500 (eventPredictions evs) ∧
    (runStore evs).episodes =
      takeLast 200 ((eventPredictions evs).filter isStressEntry) := by
  obtain ⟨h1, h2, h3⟩ := runStore_spec evs
  exact ⟨h1 ▸ takeLast_length _ _, h2 ▸ takeLast_length _ _, h3 ▸ takeLast_length _ _,
    h1, h2, h3⟩

lemma eventPredictions_map_prediction (l : List PredEntry) :
    eventPredictions (l.map StoreEvent.prediction) = l := by
  induction l with
  | nil => rfl
  | cons a t ih =>
    unfold eventPredictions at ih ⊢
    rw [List.map_cons, List.filterMap_cons]
    simp only []
    rw [ih]

/-- C7 counterexample: after the flood, the stressed episode is still in the
episode log while its originating prediction has been trimmed out of the
prediction history. -/
theorem c7_orphaned_episode_counterexample :
    stressEntry ∈ (runStore c7Events).episodes ∧
    stressEntry ∉ (runStore c7Events).predictions := by
  obtain ⟨-, hp, he⟩ := runStore_spec c7Events
  have hev : eventPredictions c7Events = stressEntry :: calmFlood :=
    eventPredictions_map_prediction _
  have hlenF : calmFlood.length = 500 := by
    unfold calmFlood
    rw [List.length_map, List.length_range]
  have hmemF : ∀ x ∈ calmFlood, x.state = MState.calm := by
    intro x hx
    obtain ⟨i, -, rfl⟩ := List.mem_map.mp hx
    rfl
  have hfilter : calmFlood.filter isStressEntry = [] := by
    rw [List.filter_eq_nil_iff]
    intro a ha
    rw [isStressEntry, hmemF a ha]
    simp
  constructor
  · rw [he, hev]
    rw [List.filter_cons]
    rw [if_pos (by rfl), hfilter]
    rw [show takeLast 200 [stressEntry] = [stressEntry] from rfl]
    exact List.mem_singleton.mpr rfl
  · rw [hp, hev]
    unfold takeLast
    rw [List.length_cons, hlenF]
    rw [show (500 + 1) - 500 = 1 from rfl]
    rw [List.drop_succ_cons, List.drop_zero]
    intro hcon
    have := hmemF _ hcon
    rw [show stressEntry.state = MState.stressed from rfl] at this
    exact absurd this (by simp)

/-- C7 (amended): every record in the episode log is a Stressed or Meltdown
prediction that was appended through savePrediction; it may however outlive its
originating entry in the prediction history because the two logs are trimmed
independently. -/
theorem c7_episode_provenance (evs : List StoreEvent) (p : PredEntry)
    (h : p ∈ (runStore evs).episodes) :
    p ∈ eventPredictions evs ∧ isStressEntry p = true := by
  obtain ⟨-, -, he⟩ := runStore_spec evs
  rw [he] at h
  have h2 := takeLast_subset _ _ h
  exact ⟨(List.mem_filter.mp h2).1, (List.mem_filter.mp h2).2⟩

/-- C7 witness: the single stressed prediction is logged as an episode and is
traced back to the appended predictions. -/
theorem c7_episode_provenance_witness :
    stressEntry ∈ eventPredictions [StoreEvent.prediction stressEntry] ∧
    isStressEntry stressEntry = true :=
  c7_episode_provenance [StoreEvent.prediction stressEntry] stressEntry (by
    rw [show (runStore [StoreEvent.prediction stressEntry]).episodes = [stressEntry] from rfl]
    exact List.mem_singleton.mpr rfl)

/-- C8: the failure counter resets on success and increments on failure below
the threshold; a disconnected link is inert; starting from a fresh connection,
fewer than 5 consecutive failures leave the link connected with no error, and
exactly the 5th consecutive failure disconnects and raises the lost-connection
error exactly once. -/
theorem c8_failure_threshold (s : LinkState) :
    (s.connected = true → pollTick s true = { s with consecutiveFailures := 0 }) ∧
    (s.connected = true → s.consecutiveFailures + 1 < maxFailures →
      pollTick s false = { s with consecutiveFailures := s.consecutiveFailures + 1 }) ∧
    (s.connected = false → ∀ outcomes, runPolls s outcomes = s) ∧
    (∀ k, k < 5 → runPolls connectedLink (List.replicate k false) =
      { consecutiveFailures := k, connected := true, lostConnectionErrors := 0 }) ∧
    runPolls connectedLink (List.replicate 5 false) =
      { consecutiveFailures := 0, connected := false, lostConnectionErrors := 1 } := by
  refine ⟨?_, ?_, ?_, ?_, by decide⟩
  · intro h
    unfold pollTick
    rw [if_pos h]
    rfl
  · intro h hlt
    unfold pollTick
    rw [if_pos h]
    have : ¬ maxFailures ≤ s.consecutiveFailures + 1 := by omega
    rw [if_neg this]
    rfl
  · intro h outcomes
    induction outcomes with
    | nil => rfl
    | cons o t ih =>
      have hstep : pollTick s o = s := by
        unfold pollTick
        rw [h]
        rfl
      unfold runPolls at ih ⊢
      rw [List.foldl_cons, hstep]
      exact ih
  · intro k hk
    interval_cases k <;> decide

/-- C8 witness: the step laws applied at concrete link states, and the run of
four consecutive failures leaving the link connected without error. -/
theorem c8_failure_threshold_witness :
    pollTick connectedLink true = { connectedLink with consecutiveFailures := 0 } ∧
    pollTick ⟨2, true, 0⟩ false =
      { (⟨2, true, 0⟩ : LinkState) with consecutiveFailures := 3 } ∧
    runPolls ⟨3, false, 1⟩ [false, false] = ⟨3, false, 1⟩ ∧
    runPolls connectedLink (List.replicate 4 false) = ⟨4, true, 0⟩ :=
  ⟨(c8_failure_threshold connectedLink).1 rfl,
    (c8_failure_threshold ⟨2, true, 0⟩).2.1 rfl (by decide),
    (c8_failure_threshold ⟨3, false, 1⟩).2.2.1 rfl [false, false],
    (c8_failure_threshold connectedLink).2.2.2.1 4 (by decide)⟩

/-- C9 counterexample: a day with 17 calm records out of 20 sits exactly on the
0.15 band boundary and resolves to Mostly Calm, the higher-severity bucket, not
to the lower-severity bucket All Calm as claimed. -/
theorem c9_boundary_counterexample :
    ((20 : ℚ) - 17) / 20 = 0.15 ∧
    severityFromCounts 17 20 = .mostlyCalm ∧
    Severity.mostlyCalm ≠ Severity.allCalm := by
  refine ⟨by norm_num, ?_, by decide⟩
  norm_num [severityFromCounts, severityOfNonCalm]

/-- C9 (amended): the severity label is a deterministic pure function of the
pair (calmCount, total), and a day whose non-calm ratio falls exactly on a band
boundary (0.15, 0.35 or 0.6) resolves to the higher-severity bucket, each band
being exclusive at its upper end. -/
theorem c9_severity_bands (l : List PredEntry) :
    (∀ l2 : List PredEntry, calmCount l = calmCount l2 → l.length = l2.length →
      daySeverity l = daySeverity l2) ∧
    daySeverity l = severityFromCounts (calmCount l) l.length ∧
    severityFromCounts 17 20 = .mostlyCalm ∧
    severityFromCounts 13 20 = .moderate ∧
    severityFromCounts 8 20 = .elevated := by
  refine ⟨?_, rfl, ?_, ?_, ?_⟩
  · intro l2 hc hl
    unfold daySeverity
    rw [hc, hl]
  · norm_num [severityFromCounts, severityOfNonCalm]
  · norm_num [severityFromCounts, severityOfNonCalm]
  · norm_num [severityFromCounts, severityOfNonCalm]

/-- C9 witness: two different single-record calm days with equal counts get the
same severity label. -/
theorem c9_severity_bands_witness :
    daySeverity [⟨.real 0, .calm, 1, 0, 0⟩] = daySeverity [⟨.real 7, .calm, 1, 0, 5⟩] :=
  (c9_severity_bands [⟨.real 0, .calm, 1, 0, 0⟩]).1 [⟨.real 7, .calm, 1, 0, 5⟩]
    (by decide) (by decide)

/-- C10: invoked on an empty store, seedHistoryIfNeeded persists a nonempty set
of synthetic records (all Calm, all with seed ids) into the prediction history,
and a real prediction saved afterwards lands alongside them in the same
persisted collection. -/
theorem c10_seed_persists_synthetic :
    (seedHistoryIfNeeded c10Dom c10Now emptyStore).predictions.isEmpty = false ∧
    ((seedHistoryIfNeeded c10Dom c10Now emptyStore).predictions.all
      fun p => isSeedId p.id && (p.state == MState.calm)) = true ∧
    ((savePrediction (seedHistoryIfNeeded c10Dom c10Now emptyStore)
        ⟨.real 900, .calm, 0.9, 0, c10Now + 60⟩).predictions.any
      fun p => isSeedId p.id) = true ∧
    ((savePrediction (seedHistoryIfNeeded c10Dom c10Now emptyStore)
        ⟨.real 900, .calm, 0.9, 0, c10Now + 60⟩).predictions.any
      fun p => p.id == .real 900) = true := by
  decide

/-- C3 witness: the conditioned-reading facts applied at a concrete empty
buffer, raw heart rate 80, and high temperature and EDA values. -/
theorem c3_clamped_hr_blocks_meltdown_witness :
    (60 : ℚ) ≤ conditionedHR [] 80 ∧ conditionedHR [] 80 ≤ 100 ∧
    (predictWithRules (conditionedHR [] 80) 38.8 19).state ≠ .meltdown :=
  ⟨(c3_clamped_hr_blocks_meltdown [] 80 38.8 19).1,
    (c3_clamped_hr_blocks_meltdown [] 80 38.8 19).2.1,
    (c3_clamped_hr_blocks_meltdown [] 80 38.8 19).2.2.2.2.2.2⟩
